import Mathlib

/-
Verification of the VATSIM Dispatcher heatmap-generator scripts.

The Python sources are shallowly embedded:
  * Python strings are modelled as `List Char` (named `Str` below), so the
    character-level regular-expression scans become structural recursions.
  * `re.search(r'^(\w{3,4})_', callsign)` is `areaCodeMatch`: at position 0 the
    greedy quantifier first tries four word characters followed by an
    underscore and only then backtracks to three word characters followed by
    an underscore.  Note that `\w` itself matches the underscore.
  * `re.search(r'_(APP|TWR|GND|CTR|DEL|DEP)', callsign)` is `findService`: a
    left-to-right scan returning the leftmost position at which an underscore
    is immediately followed by one of the six literal tokens.
  * The pandas pipeline (filter, groupby/size, pivot_table with fill_value 0,
    row sums, sort_values descending) is `tableOfPairs`.  `pivot_table`
    produces one row per observed area code and one column per OBSERVED
    controller type (both in sorted order), filling only the missing
    cells of observed columns with 0; this is modelled exactly.
  * Python's `str.upper` is modelled by `List.map Char.toUpper` (the ASCII
    case mapping, which covers every string the scripts compare against).
-/

namespace Vatsim

/-- Python strings, modelled at character level. -/
abbrev Str := List Char

/-- Sentinel for an unparsable area code, from the source string literal. -/
def UNKNOWN : Str := ("UNKNOWN".toList)

/-- Sentinel for an unrecognised controller type, from the source literal. -/
def OTHER : Str := ("OTHER".toList)

/-- The six service-type tokens of the alternation
`_(APP|TWR|GND|CTR|DEL|DEP)`, in the order the regex lists them. -/
def serviceTokens : List Str :=
  [("APP".toList), ("TWR".toList), ("GND".toList),
   ("CTR".toList), ("DEL".toList), ("DEP".toList)]

/-- One character of the class `\w`: a letter, a digit, or an underscore
(ASCII model of the Python regex word class). -/
def wordChar (c : Char) : Bool :=
  c.isAlpha || c.isDigit || c == '_'

/-- The anchored search `re.search(r'^(\w{3,4})_', callsign)`.  The greedy
quantifier first attempts four word characters followed by `_`, then
backtracks to three word characters followed by `_`; the captured group is
returned. -/
def areaCodeMatch : Str → Option Str
  | c1 :: c2 :: c3 :: c4 :: c5 :: _ =>
      if wordChar c1 && wordChar c2 && wordChar c3 && wordChar c4 && c5 == '_' then
        some [c1, c2, c3, c4]
      else if wordChar c1 && wordChar c2 && wordChar c3 && c4 == '_' then
        some [c1, c2, c3]
      else none
  | [c1, c2, c3, c4] =>
      if wordChar c1 && wordChar c2 && wordChar c3 && c4 == '_' then
        some [c1, c2, c3]
      else none
  | _ => none

/-- Does the token `t` literally match at the head of `rest`? -/
def tokenMatches : Str → Str → Bool
  | [], _ => true
  | _ :: _, [] => false
  | a :: as, b :: bs => a == b && tokenMatches as bs

/-- At one scan position whose character was an underscore, try the six
alternatives of `(APP|TWR|GND|CTR|DEL|DEP)` in order on the remainder. -/
def tokenAt (rest : Str) : Option Str :=
  serviceTokens.find? (fun t => tokenMatches t rest)

/-- The unanchored search `re.search(r'_(APP|TWR|GND|CTR|DEL|DEP)', callsign)`:
scan left to right; at the first underscore followed by one of the six
tokens, return that token (the captured group). -/
def findService : Str → Option Str
  | [] => none
  | c :: rest =>
      if c == '_' then
        match tokenAt rest with
        | some t => some t
        | none => findService rest
      else findService rest

/-- ASCII model of Python's `str.upper()`. -/
def pyUpper (s : Str) : Str := s.map Char.toUpper

/-- The source's `extract_info_with_lon` (the spec's `classify`): area code
from the anchored prefix match, upper-cased, else `UNKNOWN`; controller type
from the token search, else `OTHER`. -/
def extract_info_with_lon (callsign : Str) : Str × Str :=
  let area_code :=
    match areaCodeMatch callsign with
    | some pre => pyUpper pre
    | none => UNKNOWN
  let controller_type :=
    match findService callsign with
    | some t => t
    | none => OTHER
  (area_code, controller_type)

/-- Classify every record's callsign and keep the rows passing
`(area_code != 'UNKNOWN') & (controller_type != 'OTHER')`. -/
def qualifying (recs : List Str) : List (Str × Str) :=
  (recs.map extract_info_with_lon).filter
    (fun p => !(p.1 == UNKNOWN) && !(p.2 == OTHER))

/-- Size of the group keyed by `(a, t)` in the groupby over
`['area_code', 'controller_type']`. -/
def countPair (ps : List (Str × Str)) (a t : Str) : Nat :=
  ps.countP (fun p => p.1 == a && p.2 == t)

/-- Lexicographic character-code order on strings, the order pandas uses for
the pivot table's sorted row and column labels. -/
def strLt : Str → Str → Bool
  | [], [] => false
  | [], _ :: _ => true
  | _ :: _, [] => false
  | a :: as, b :: bs => decide (a < b) || (a == b && strLt as bs)

/-- Propositional form of `strLt`, for sorting. -/
def strLtRel (a b : Str) : Prop := strLt a b = true

instance : DecidableRel strLtRel :=
  fun a b => inferInstanceAs (Decidable (strLt a b = true))

/-- The sorted distinct labels of a pivot axis. -/
def sortedDedup (l : List Str) : List Str :=
  List.insertionSort strLtRel l.dedup

/-- One row of the pivoted summary: its area code, its count per column of
the table (in column order), and its `Total_Score`. -/
structure SummaryRow where
  area : Str
  counts : List Nat
  total : Nat
deriving DecidableEq, Repr

/-- The pivoted summary table: the controller-type column labels, and the
rows (each carrying its `Total_Score`). -/
structure SummaryTable where
  cols : List Str
  rows : List SummaryRow
deriving DecidableEq, Repr

/-- Sort key of `sort_values(by='Total_Score', ascending=False)`. -/
def rowOrder (x y : SummaryRow) : Prop := y.total ≤ x.total

instance : DecidableRel rowOrder :=
  fun x y => Nat.decLe y.total x.total

instance : IsTotal SummaryRow rowOrder :=
  ⟨fun x y => Nat.le_total y.total x.total⟩

instance : IsTrans SummaryRow rowOrder :=
  ⟨fun _ _ _ hxy hyz => Nat.le_trans hyz hxy⟩

/-- The row the pivot table produces for area code `a`: one cell per column
label, each the size of the `(a, t)` group (0 when the group is absent,
`pivot_table`'s `fill_value`), and `Total_Score` their sum
(`summary_df.sum(axis=1)`). -/
def mkRow (ps : List (Str × Str)) (cols : List Str) (a : Str) : SummaryRow :=
  { area := a,
    counts := cols.map (fun t => countPair ps a t),
    total := (cols.map (fun t => countPair ps a t)).sum }

/-- The groupby / pivot_table / Total_Score / sort_values pipeline on the
filtered classified pairs: columns are the sorted distinct observed
controller types, one row per sorted distinct observed area code, rows then
re-sorted by `Total_Score` descending. -/
def tableOfPairs (ps : List (Str × Str)) : SummaryTable :=
  let areas := sortedDedup (ps.map Prod.fst)
  let cols := sortedDedup (ps.map Prod.snd)
  { cols := cols,
    rows := List.insertionSort rowOrder (areas.map (fun a => mkRow ps cols a)) }

/-- The in-memory summary computed by `create_controller_summary_csv` from a
list of records (each reduced to its callsign, the only field the pipeline
reads). -/
def create_controller_summary (recs : List Str) : SummaryTable :=
  tableOfPairs (qualifying recs)

/-- Observable outcome of one script run: the table written to the output
CSV (`none` when no file is written) and the message printed. -/
structure RunOutcome where
  output : Option SummaryTable
  message : String
deriving DecidableEq

/-- The whole script `create_controller_summary_csv`, as a function of the
input file's contents (`none` models a missing file, raising
`FileNotFoundError` from `open`).  An empty record list builds a pandas
DataFrame with no columns, so `df['callsign']` raises `KeyError`, caught by
the generic `except Exception` handler; both failure paths print and write
nothing, since `to_csv` is the last statement of the `try` block. -/
def create_controller_summary_csv (jsonFile : Option (List Str)) : RunOutcome :=
  match jsonFile with
  | none =>
      { output := none, message := "Error: the input file was not found." }
  | some data =>
      if data.isEmpty then
        { output := none, message := "An unexpected error occurred: KeyError callsign" }
      else
        { output := some (create_controller_summary data),
          message := "CSV file generated successfully." }

/-- One row of the `iata-icao.csv` reference table.  The coordinate payload
is abstract (`α`): the source converts with `float`, and no claim depends on
the numeric values, only on which row is returned. -/
structure AirportRow (α : Type) where
  icao : Str
  latitude : α
  longitude : α

/-- The source's `icaotolonlat`: upper-case the query, return the first row
of the table whose `icao` column equals it (`row.iloc[0]`), or `none`
(modelling the `{lat: None, lon: None}` result) when no row matches. -/
def icaotolonlat {α : Type} (table : List (AirportRow α)) (icao : Str) :
    Option (α × α) :=
  match table.find? (fun row => row.icao == pyUpper icao) with
  | some row => some (row.latitude, row.longitude)
  | none => none



lemma char_toUpper_idem (c : Char) : c.toUpper.toUpper = c.toUpper := by
  have key : ∀ m : Nat, m.isValidChar → (Char.ofNat m).toNat = m := by
    intro m hv
    simp [Char.ofNat, hv, Char.ofNatAux, Char.toNat, UInt32.toNat, BitVec.toNat_ofNatLt]
  unfold Char.toUpper
  by_cases h : c.toNat ≥ 97 ∧ c.toNat ≤ 122
  · rw [if_pos h]
    have hv : (c.toNat - 32).isValidChar := Or.inl (by omega)
    simp only [key _ hv]
    rw [if_neg (by omega)]
  · rw [if_neg h, if_neg h]

lemma pyUpper_idem (s : Str) : pyUpper (pyUpper s) = pyUpper s := by
  induction s with
  | nil => rfl
  | cons c cs ih =>
      simp only [pyUpper, List.map_cons] at ih ⊢
      rw [char_toUpper_idem, ih]

lemma mem_sortedDedup {x : Str} {l : List Str} : x ∈ sortedDedup l ↔ x ∈ l :=
  ((List.perm_insertionSort strLtRel l.dedup).mem_iff).trans List.mem_dedup

lemma nodup_sortedDedup (l : List Str) : (sortedDedup l).Nodup :=
  (List.perm_insertionSort strLtRel l.dedup).nodup_iff.mpr (List.nodup_dedup l)

lemma findService_mem {cs : Str} {t : Str} (h : findService cs = some t) :
    t ∈ serviceTokens := by
  induction cs with
  | nil => simp [findService] at h
  | cons c rest ih =>
      by_cases hc : c == '_'
      · rw [findService, if_pos hc] at h
        cases htk : tokenAt rest with
        | some u =>
            rw [htk] at h
            cases h
            exact List.mem_of_find?_eq_some htk
        | none =>
            rw [htk] at h
            exact ih h
      · rw [findService, if_neg hc] at h
        exact ih h

lemma areaCodeMatch_length {cs pre : Str} (h : areaCodeMatch cs = some pre) :
    pre.length = 3 ∨ pre.length = 4 := by
  rcases cs with _ | ⟨c1, _ | ⟨c2, _ | ⟨c3, _ | ⟨c4, _ | ⟨c5, rest⟩⟩⟩⟩⟩ <;>
    simp only [areaCodeMatch] at h <;>
    first
      | exact Option.noConfusion h
      | (split_ifs at h <;>
          first
            | exact Option.noConfusion h
            | (simp only [Option.some.injEq] at h
               subst h
               simp))


lemma countP_or_disjoint {α : Type} (p q : α → Bool) (l : List α)
    (h : ∀ x ∈ l, ¬(p x = true ∧ q x = true)) :
    l.countP (fun x => p x || q x) = l.countP p + l.countP q := by
  induction l with
  | nil => simp
  | cons x l ih =>
      have hx := h x (List.mem_cons_self x l)
      have hl : ∀ y ∈ l, ¬(p y = true ∧ q y = true) :=
        fun y hy => h y (List.mem_cons_of_mem x hy)
      simp only [List.countP_cons, ih hl]
      cases hp : p x <;> cases hq : q x <;> simp_all <;> omega

lemma sum_countPair_mem (ps : List (Str × Str)) (a : Str) :
    ∀ ts : List Str, ts.Nodup →
      (ts.map (fun t => countPair ps a t)).sum =
        ps.countP (fun p => p.1 == a && decide (p.2 ∈ ts)) := by
  intro ts
  induction ts with
  | nil =>
      intro _
      simp [List.countP_eq_zero]
  | cons t ts ih =>
      intro hnd
      rcases List.nodup_cons.mp hnd with ⟨hnotmem, hnd2⟩
      have heq : ps.countP (fun p => p.1 == a && decide (p.2 ∈ t :: ts)) =
          ps.countP (fun p =>
            (p.1 == a && p.2 == t) || (p.1 == a && decide (p.2 ∈ ts))) := by
        apply List.countP_congr
        intro p _
        simp only [List.mem_cons, Bool.and_eq_true, Bool.or_eq_true, beq_iff_eq,
          decide_eq_true_eq]
        tauto
      rw [List.map_cons, List.sum_cons, heq,
        countP_or_disjoint (fun p => p.1 == a && p.2 == t)
          (fun p => p.1 == a && decide (p.2 ∈ ts)) ps ?disj, ih hnd2]
      · rfl
      case disj =>
        intro p _ hboth
        rcases hboth with ⟨h1, h2⟩
        simp only [Bool.and_eq_true, beq_iff_eq, decide_eq_true_eq] at h1 h2
        exact hnotmem (h1.2 ▸ h2.2)

lemma sum_countPair_eq (ps : List (Str × Str)) (a : Str) (ts : List Str)
    (hnd : ts.Nodup) (hcov : ∀ p ∈ ps, p.1 = a → p.2 ∈ ts) :
    (ts.map (fun t => countPair ps a t)).sum = ps.countP (fun p => p.1 == a) := by
  rw [sum_countPair_mem ps a ts hnd]
  apply List.countP_congr
  intro p hp
  simp only [Bool.and_eq_true, beq_iff_eq, decide_eq_true_eq]
  constructor
  · rintro ⟨h1, _⟩
    exact h1
  · intro h1
    exact ⟨h1, hcov p hp h1⟩

lemma qualifying_snd_mem {recs : List Str} {p : Str × Str}
    (hp : p ∈ qualifying recs) : p.2 ∈ serviceTokens := by
  rcases List.mem_filter.mp hp with ⟨hmem, hpred⟩
  rcases List.mem_map.mp hmem with ⟨c, _, rfl⟩
  simp only [Bool.and_eq_true, Bool.not_eq_eq_eq_not, Bool.not_true,
    beq_eq_false_iff_ne, ne_eq] at hpred
  rcases hpred with ⟨_, hsnd⟩
  cases hfs : findService c with
  | none =>
      exfalso
      apply hsnd
      simp [extract_info_with_lon, hfs]
  | some t =>
      have : (extract_info_with_lon c).2 = t := by
        simp [extract_info_with_lon, hfs]
      rw [this]
      exact findService_mem hfs

lemma qualifying_snd_mem_cols {recs : List Str} {p : Str × Str}
    (hp : p ∈ qualifying recs) :
    p.2 ∈ sortedDedup ((qualifying recs).map Prod.snd) :=
  mem_sortedDedup.mpr (List.mem_map_of_mem Prod.snd hp)

lemma mem_rows_iff {ps : List (Str × Str)} {row : SummaryRow} :
    row ∈ (tableOfPairs ps).rows ↔
      ∃ a ∈ sortedDedup (ps.map Prod.fst),
        row = mkRow ps (sortedDedup (ps.map Prod.snd)) a := by
  unfold tableOfPairs
  simp only
  rw [(List.perm_insertionSort rowOrder _).mem_iff, List.mem_map]
  constructor
  · rintro ⟨a, ha, rfl⟩
    exact ⟨a, ha, rfl⟩
  · rintro ⟨a, ha, rfl⟩
    exact ⟨a, ha, rfl⟩


lemma findService_eq_none_of_no_token (cs : Str)
    (h : ∀ i, i < cs.length → cs.getD i 'x' = '_' → tokenAt (cs.drop (i + 1)) = none) :
    findService cs = none := by
  induction cs with
  | nil => rfl
  | cons c rest ih =>
      have hshift : ∀ i, i < rest.length → rest.getD i 'x' = '_' →
          tokenAt (rest.drop (i + 1)) = none := by
        intro i hi hg
        have := h (i + 1) (by simpa using Nat.succ_lt_succ hi)
        simp only [List.getD_cons_succ, List.drop_succ_cons] at this
        exact this hg
      by_cases hc : c = '_'
      · have h0 : tokenAt rest = none := by
          have := h 0 (by simp) (by simpa using hc)
          simpa using this
        rw [findService, if_pos (by simpa using hc), h0]
        exact ih hshift
      · rw [findService, if_neg (by simpa using hc)]
        exact ih hshift


/-- Claim C3 (confirmed): the classifier returns exactly the spec's worked
examples: `LON_S_CTR` gives `(LON, CTR)`; `RANDOMSTRING` gives
`(UNKNOWN, OTHER)`; and `AB_CTR` gives `(UNKNOWN, CTR)` because the
area-code prefix needs 3 or 4 word characters and `AB` has only 2. -/
theorem classify_worked_examples :
    extract_info_with_lon ("LON_S_CTR".toList) = (("LON".toList), ("CTR".toList)) ∧
    extract_info_with_lon ("RANDOMSTRING".toList) = (UNKNOWN, OTHER) ∧
    extract_info_with_lon ("AB_CTR".toList) = (UNKNOWN, ("CTR".toList)) := by
  decide

/-- Claim C9 (confirmed): when the input file is missing, the script writes
no output file at all (the `to_csv` call, the only write, is never reached)
and reports a user-facing message; the `FileNotFoundError` is caught, so no
fault propagates. -/
theorem missing_input_reports_and_writes_nothing :
    (create_controller_summary_csv none).output = none ∧
    (create_controller_summary_csv none).message =
      "Error: the input file was not found." :=
  ⟨rfl, rfl⟩

/-- Claim C2, counterexample: on the literally empty record list the script
does NOT produce an empty output table.  `pd.DataFrame([])` has no
`callsign` column, so the column access raises `KeyError`, caught by the
generic handler: nothing is written and the generic error message, not the
success message, is printed. -/
theorem empty_input_takes_error_path :
    (create_controller_summary_csv (some [])).output = none ∧
    ¬(create_controller_summary_csv (some [])).message =
        "CSV file generated successfully." :=
  ⟨rfl, by decide⟩

/-- Claim C2 (corrected): for every NON-empty input in which no record
survives the UNKNOWN/OTHER filter, the aggregation runs to the end without
an error and writes an empty output table. -/
theorem no_qualifying_records_empty_table (data : List Str) (hne : data ≠ [])
    (hq : qualifying data = []) :
    create_controller_summary_csv (some data) =
      { output := some { cols := [], rows := [] },
        message := "CSV file generated successfully." } := by
  have hempty : data.isEmpty = false := by
    cases data with
    | nil => exact absurd rfl hne
    | cons a l => rfl
  have step : create_controller_summary_csv (some data) =
      { output := some (create_controller_summary data),
        message := "CSV file generated successfully." } := by
    simp [create_controller_summary_csv, hempty]
  rw [step, create_controller_summary, hq]
  rfl

/-- Witness for the corrected C2 at a concrete non-empty, all-filtered input. -/
theorem no_qualifying_records_empty_table_witness :
    create_controller_summary_csv (some [("RANDOMSTRING".toList)]) =
      { output := some { cols := [], rows := [] },
        message := "CSV file generated successfully." } :=
  no_qualifying_records_empty_table [("RANDOMSTRING".toList)] (by decide) (by decide)

/-- Claim C1, counterexample: for the input `[LON_CTR]` the qualifying
records are non-empty, yet the output table has no `APP` column —
`pivot_table` only creates columns for controller types observed in the
data, so a service type with zero occurrences across the whole input is an
absent column, not a column of zeros. -/
theorem pivot_lacks_unobserved_type_column :
    qualifying [("LON_CTR".toList)] ≠ [] ∧
    ("APP".toList) ∉ (create_controller_summary [("LON_CTR".toList)]).cols := by
  decide

/-- The areas of the pivot table's rows are pairwise distinct: the rows are
built over the deduplicated area labels, each row's `area` field is its
label, and the final sort only permutes them. -/
lemma rows_area_nodup (ps : List (Str × Str)) :
    ((tableOfPairs ps).rows.map SummaryRow.area).Nodup := by
  unfold tableOfPairs
  simp only
  have hperm := (List.perm_insertionSort rowOrder
    ((sortedDedup (ps.map Prod.fst)).map
      (fun a => mkRow ps (sortedDedup (ps.map Prod.snd)) a))).map SummaryRow.area
  have heq : ((sortedDedup (ps.map Prod.fst)).map
      (fun a => mkRow ps (sortedDedup (ps.map Prod.snd)) a)).map SummaryRow.area =
      sortedDedup (ps.map Prod.fst) := by
    rw [List.map_map]
    have hcomp : SummaryRow.area ∘
        (fun a => mkRow ps (sortedDedup (ps.map Prod.snd)) a) = fun a => a := rfl
    rw [hcomp, List.map_id']
  rw [heq] at hperm
  exact hperm.nodup_iff.mpr (nodup_sortedDedup _)

/-- Claim C1 (corrected): the output table has exactly one column per service
type observed in at least one qualifying record (the column labels are
pairwise distinct, and no column exists for a type never observed); each row
carries, for every column of the table, exactly the count of that
`(area_code, service_type)` pair — so a combination not observed but whose
type is observed elsewhere appears as the count 0 — and there is exactly one
row for every area code with at least one qualifying record (a row exists
for an area code iff it has a qualifying record, and the rows' area codes
are pairwise distinct). -/
theorem summary_columns_are_observed_types (recs : List Str) :
    (∀ t, t ∈ (create_controller_summary recs).cols ↔
        ∃ p ∈ qualifying recs, p.2 = t) ∧
    (∀ row ∈ (create_controller_summary recs).rows,
        row.counts = (create_controller_summary recs).cols.map
          (fun t => countPair (qualifying recs) row.area t)) ∧
    (∀ a, (∃ p ∈ qualifying recs, p.1 = a) ↔
        ∃ row ∈ (create_controller_summary recs).rows, row.area = a) ∧
    (create_controller_summary recs).cols.Nodup ∧
    ((create_controller_summary recs).rows.map SummaryRow.area).Nodup := by
  refine ⟨?_, ?_, ?_, ?_, ?_⟩
  · intro t
    show t ∈ sortedDedup ((qualifying recs).map Prod.snd) ↔ _
    rw [mem_sortedDedup, List.mem_map]
  · intro row hrow
    rcases mem_rows_iff.mp hrow with ⟨a, _, rfl⟩
    rfl
  · intro a
    constructor
    · rintro ⟨p, hp, rfl⟩
      refine ⟨mkRow (qualifying recs)
        (sortedDedup ((qualifying recs).map Prod.snd)) p.1, ?_, rfl⟩
      exact mem_rows_iff.mpr
        ⟨p.1, mem_sortedDedup.mpr (List.mem_map_of_mem Prod.fst hp), rfl⟩
    · rintro ⟨row, hrow, rfl⟩
      rcases mem_rows_iff.mp hrow with ⟨a, ha, rfl⟩
      rcases List.mem_map.mp (mem_sortedDedup.mp ha) with ⟨p, hp, hpa⟩
      exact ⟨p, hp, hpa⟩
  · exact nodup_sortedDedup _
  · exact rows_area_nodup _

/-- Witness instantiating the corrected C1 at a concrete input. -/
theorem summary_columns_are_observed_types_witness :
    ("CTR".toList) ∈ (create_controller_summary [("LON_CTR".toList)]).cols :=
  ((summary_columns_are_observed_types [("LON_CTR".toList)]).1 ("CTR".toList)).mpr
    (by decide)

/-- Claim C4 (confirmed): every output row's `Total_Score` equals the exact
sum of its six per-service-type counts (the count of an absent column being
0, the row sum over the table's columns coincides with the sum over all six
service types). -/
theorem total_score_eq_sum_of_six (recs : List Str) (row : SummaryRow)
    (hrow : row ∈ (create_controller_summary recs).rows) :
    row.total = (serviceTokens.map
      (fun t => countPair (qualifying recs) row.area t)).sum := by
  rcases mem_rows_iff.mp hrow with ⟨a, _, rfl⟩
  have h1 := sum_countPair_eq (qualifying recs) a
    (sortedDedup ((qualifying recs).map Prod.snd))
    (nodup_sortedDedup _)
    (fun p hp _ => qualifying_snd_mem_cols hp)
  have h2 := sum_countPair_eq (qualifying recs) a serviceTokens
    (by decide)
    (fun p hp _ => qualifying_snd_mem hp)
  exact h1.trans h2.symm

/-- Witness instantiating C4 at a concrete input and row. -/
theorem total_score_eq_sum_of_six_witness :
    ({ area := ("LON".toList), counts := [1], total := 1 } : SummaryRow).total =
      (serviceTokens.map (fun t =>
        countPair (qualifying [("LON_CTR".toList)]) ("LON".toList) t)).sum :=
  total_score_eq_sum_of_six [("LON_CTR".toList)]
    { area := ("LON".toList), counts := [1], total := 1 } (by decide)

/-- Claim C5 (confirmed): for every input, the output rows are sorted by
`Total_Score` descending — the sequence of totals is non-increasing from
the first row to the last. -/
theorem rows_sorted_by_total_desc (recs : List Str) :
    List.Sorted rowOrder (create_controller_summary recs).rows ∧
    List.Pairwise (fun m n => n ≤ m)
      ((create_controller_summary recs).rows.map SummaryRow.total) := by
  have h : List.Sorted rowOrder (create_controller_summary recs).rows :=
    List.sorted_insertionSort rowOrder _
  refine ⟨h, ?_⟩
  rw [List.pairwise_map]
  exact h

/-- Claim C6 (confirmed): inserting, at any position, a record whose
classification yields area code `UNKNOWN` or service type `OTHER` leaves
the aggregated output exactly unchanged: such records contribute to no
output row. -/
theorem sentinel_record_contributes_nothing (l1 l2 : List Str) (r : Str)
    (h : (extract_info_with_lon r).1 = UNKNOWN ∨
         (extract_info_with_lon r).2 = OTHER) :
    create_controller_summary (l1 ++ r :: l2) =
      create_controller_summary (l1 ++ l2) := by
  unfold create_controller_summary
  congr 1
  unfold qualifying
  have hfalse : (!((extract_info_with_lon r).1 == UNKNOWN) &&
      !((extract_info_with_lon r).2 == OTHER)) = false := by
    rcases h with h | h <;> simp [h]
  simp only [List.map_append, List.map_cons, List.filter_append, List.filter_cons,
    hfalse]
  simp

/-- Witness instantiating C6 with a concrete sentinel record. -/
theorem sentinel_record_contributes_nothing_witness :
    create_controller_summary [("LON_CTR".toList), ("RANDOMSTRING".toList)] =
      create_controller_summary [("LON_CTR".toList)] :=
  sentinel_record_contributes_nothing [("LON_CTR".toList)] []
    ("RANDOMSTRING".toList) (by decide)

/-- Claim C7 (confirmed): classification is a total function of the
callsign alone (it is a plain Lean function, so it never fails), it is
deterministic (equal callsigns classify equally), and it always returns a
sentinel-or-real pair: the area code is `UNKNOWN` or the upper-cased 3- or
4-character matched prefix, and the service type is `OTHER` or one of the
six tokens. -/
theorem classify_total_deterministic (cs cs' : Str) (h : cs = cs') :
    extract_info_with_lon cs = extract_info_with_lon cs' ∧
    ((extract_info_with_lon cs).1 = UNKNOWN ∨
      ∃ pre, areaCodeMatch cs = some pre ∧ (pre.length = 3 ∨ pre.length = 4) ∧
        (extract_info_with_lon cs).1 = pyUpper pre) ∧
    ((extract_info_with_lon cs).2 = OTHER ∨
      (extract_info_with_lon cs).2 ∈ serviceTokens) := by
  subst h
  refine ⟨rfl, ?_, ?_⟩
  · cases ham : areaCodeMatch cs with
    | none =>
        left
        simp [extract_info_with_lon, ham]
    | some pre =>
        right
        exact ⟨pre, rfl, areaCodeMatch_length ham,
          by simp [extract_info_with_lon, ham]⟩
  · cases hfs : findService cs with
    | none =>
        left
        simp [extract_info_with_lon, hfs]
    | some t =>
        right
        have ht : (extract_info_with_lon cs).2 = t := by
          simp [extract_info_with_lon, hfs]
        rw [ht]
        exact findService_mem hfs

/-- Witness instantiating C7 at a concrete callsign. -/
theorem classify_total_deterministic_witness :
    extract_info_with_lon ("LON_S_CTR".toList) =
        extract_info_with_lon ("LON_S_CTR".toList) ∧
    ((extract_info_with_lon ("LON_S_CTR".toList)).1 = UNKNOWN ∨
      ∃ pre, areaCodeMatch ("LON_S_CTR".toList) = some pre ∧
        (pre.length = 3 ∨ pre.length = 4) ∧
        (extract_info_with_lon ("LON_S_CTR".toList)).1 = pyUpper pre) ∧
    ((extract_info_with_lon ("LON_S_CTR".toList)).2 = OTHER ∨
      (extract_info_with_lon ("LON_S_CTR".toList)).2 ∈ serviceTokens) :=
  classify_total_deterministic ("LON_S_CTR".toList) ("LON_S_CTR".toList) rfl

/-- Claim C8 (confirmed): the coordinate lookup is case-insensitive in its
input — for every table and every query string, looking up the string and
looking up its upper-cased form return identical results; in particular
`ellx` and `ELLX` agree. -/
theorem icaotolonlat_case_insensitive {α : Type} (table : List (AirportRow α))
    (s : Str) :
    icaotolonlat table s = icaotolonlat table (pyUpper s) ∧
    icaotolonlat table ("ellx".toList) = icaotolonlat table ("ELLX".toList) := by
  constructor
  · unfold icaotolonlat
    rw [pyUpper_idem]
  · unfold icaotolonlat
    have hup : pyUpper ("ellx".toList) = pyUpper ("ELLX".toList) := by decide
    rw [hup]

/-- Claim C10 (confirmed): service-type matching is case-sensitive while
area-code matching is not.  If no underscore in the callsign is followed by
one of the six upper-case tokens (in particular when the tokens appear only
in lower case), the service type is `OTHER`; yet a prefix of four
lower-case letters before an underscore is accepted as the area code and
returned upper-cased, so `egll_twr` classifies as `(EGLL, OTHER)`. -/
theorem service_match_case_sensitive_area_not :
    (∀ cs : Str,
      (∀ i, i < cs.length → cs.getD i 'x' = '_' →
        tokenAt (cs.drop (i + 1)) = none) →
      (extract_info_with_lon cs).2 = OTHER) ∧
    (∀ c1 c2 c3 c4 : Char, ∀ rest : Str,
      c1.isLower = true → c2.isLower = true → c3.isLower = true →
      c4.isLower = true →
      (extract_info_with_lon (c1 :: c2 :: c3 :: c4 :: '_' :: rest)).1 =
        pyUpper [c1, c2, c3, c4]) ∧
    extract_info_with_lon ("egll_twr".toList) = (("EGLL".toList), OTHER) := by
  refine ⟨?_, ?_, by decide⟩
  · intro cs h
    have hnone := findService_eq_none_of_no_token cs h
    simp [extract_info_with_lon, hnone]
  · intro c1 c2 c3 c4 rest h1 h2 h3 h4
    have hw : ∀ c : Char, c.isLower = true → wordChar c = true := by
      intro c hc
      simp [wordChar, Char.isAlpha, hc]
    have harea : areaCodeMatch (c1 :: c2 :: c3 :: c4 :: '_' :: rest) =
        some [c1, c2, c3, c4] := by
      simp [areaCodeMatch, hw c1 h1, hw c2 h2, hw c3 h3, hw c4 h4]
    simp [extract_info_with_lon, harea]

/-- Witness instantiating both universal parts of C10 at concrete inputs. -/
theorem service_match_case_sensitive_area_not_witness :
    (extract_info_with_lon ("abc_twr".toList)).2 = OTHER ∧
    (extract_info_with_lon ('e' :: 'g' :: 'l' :: 'l' :: '_' :: ("twr".toList))).1 =
      pyUpper ['e', 'g', 'l', 'l'] :=
  ⟨service_match_case_sensitive_area_not.1 ("abc_twr".toList) (by decide),
   service_match_case_sensitive_area_not.2.1 'e' 'g' 'l' 'l' ("twr".toList)
     (by decide) (by decide) (by decide) (by decide)⟩

end Vatsim
